import Mathlib

/-!
Verification development for the disaster-relief weather dashboard
(`src/disaster_response.py`).  The risk scorer and the location aggregator
are embedded shallowly: Python floats become rationals, dictionaries become
association lists, raised exceptions become `Except.error`, and the
`try/except` wrapper in `fetch_weather_data` becomes a total function into
`Option`.  The network is an explicit environment parameter.
-/

namespace DisasterRelief

/-- One element of the observation's `weather` array; `calculate_risk` only
reads its `main` label, which is `none` when the key is absent. -/
structure WeatherItem where
  main : Option String
deriving Repr, DecidableEq

/-- A weather observation (the JSON body of one API response), restricted to
the key paths `calculate_risk` reads: `weather` (a list), `main.temp`,
`wind.speed` and `rain.1h`.  A field is `none` when the corresponding key
path is absent from the JSON object. -/
structure Observation where
  weather : Option (List WeatherItem)
  mainTemp : Option ℚ
  windSpeed : Option ℚ
  rain1h : Option ℚ
deriving Repr, DecidableEq

/-- The fixed condition-weight table `self.weather_risk_weights` from
`WeatherRiskAnalyzer.__init__`. -/
def weather_risk_weights : List (String × ℚ) :=
  [("Thunderstorm", 0.9), ("Tornado", 1.0), ("Hurricane", 1.0),
   ("Tropical Storm", 0.9), ("Rain", 0.6), ("Snow", 0.7), ("Extreme", 0.8),
   ("Drizzle", 0.3), ("Clouds", 0.2), ("Clear", 0.1)]

/-- Python list indexing `xs[0]`: raises `IndexError` on an empty list. -/
def index0 : List α → Except String α
  | [] => Except.error "IndexError: list index out of range"
  | x :: _ => Except.ok x

/-- Translation of `WeatherRiskAnalyzer.calculate_risk`.  Each local binding
mirrors one line of the Python body; the only statement that can raise is the
`[0]` index into `weather_data.get('weather', [{}])`. -/
def calculate_risk (weather_data : Observation) : Except String ℚ := do
  let base_risk : ℚ := 0.1
  let item ← index0 ((weather_data.weather).getD [⟨none⟩])
  let main_condition := (item.main).getD "Clear"
  let weather_risk := (List.lookup main_condition weather_risk_weights).getD 0.1
  let temp := (weather_data.mainTemp).getD 0
  let temp_risk : ℚ :=
    if temp > 35 ∨ temp < -10 then 0.3
    else if temp > 30 ∨ temp < 0 then 0.2
    else 0
  let wind_speed := (weather_data.windSpeed).getD 0
  let wind_risk := min (wind_speed / 100) 0.4
  let rain := (weather_data.rain1h).getD 0
  let rain_risk := min (rain / 50) 0.3
  let total_risk := min 0.95 (base_risk + weather_risk + temp_risk + wind_risk + rain_risk)
  return total_risk

/-- The risk-colour function `DisasterResponseSystem.get_risk_color`. -/
def get_risk_color (risk_score : ℚ) : String :=
  if risk_score < 0.3 then "green"
  else if risk_score < 0.7 then "orange"
  else "red"

/-- The scoring formula exactly as the specification words it: the base 0.1
plus the `conditionWeight` table entry for the condition label (0.1 for
unrecognized labels), plus `tempRisk` (0.3 for temperature above 35 or below
−10, else 0.2 for above 30 or below 0, else 0), plus the capped wind and
precipitation terms, the sum clamped at 0.95. -/
def spec_score (label : String) (temperature windSpeed precipitation : ℚ) : ℚ :=
  let conditionWeight := (List.lookup label weather_risk_weights).getD 0.1
  let tempRisk : ℚ :=
    if temperature > 35 ∨ temperature < -10 then 0.3
    else if temperature > 30 ∨ temperature < 0 then 0.2
    else 0
  min 0.95 (0.1 + conditionWeight + tempRisk + min (windSpeed / 100) 0.4
    + min (precipitation / 50) 0.3)

/-- Characterization of `calculate_risk` whenever the (defaulted) weather
list is non-empty: it returns the clamped sum of the five terms. -/
lemma calculate_risk_eq (wd : Observation) (item : WeatherItem)
    (rest : List WeatherItem) (h : (wd.weather).getD [⟨none⟩] = item :: rest) :
    calculate_risk wd = Except.ok (
      min 0.95 (0.1 + (List.lookup ((item.main).getD "Clear") weather_risk_weights).getD 0.1
        + (if (wd.mainTemp).getD 0 > 35 ∨ (wd.mainTemp).getD 0 < -10 then (0.3 : ℚ)
           else if (wd.mainTemp).getD 0 > 30 ∨ (wd.mainTemp).getD 0 < 0 then 0.2 else 0)
        + min ((wd.windSpeed).getD 0 / 100) 0.4
        + min ((wd.rain1h).getD 0 / 50) 0.3)) := by
  simp [calculate_risk, h, index0]

/-- Every entry of the weight table is at least 0.1, hence so is any lookup
with default 0.1. -/
lemma le_lookup_weights (s : String) :
    (0.1 : ℚ) ≤ (List.lookup s weather_risk_weights).getD 0.1 := by
  have key : ∀ l : List (String × ℚ), (∀ p ∈ l, (0.1 : ℚ) ≤ p.2) →
      (0.1 : ℚ) ≤ (List.lookup s l).getD 0.1 := by
    intro l hl
    induction l with
    | nil => simp
    | cons p l ih =>
      rcases p with ⟨k, v⟩
      rcases hbk : (s == k) with _ | _
      · rw [List.lookup_cons, hbk]
        exact ih fun p hp => hl p (List.mem_cons_of_mem _ hp)
      · rw [List.lookup_cons, hbk]
        exact hl ⟨k, v⟩ (List.mem_cons_self _ _)
  apply key
  intro p hp
  fin_cases hp <;> norm_num

/-- C7: the score of the empty observation is exactly 0.2: the base 0.1 plus
the default condition weight 0.1 for "Clear", all other terms 0. -/
theorem calculate_risk_empty_observation :
    calculate_risk ⟨none, none, none, none⟩ = Except.ok 0.2 := by
  simp [calculate_risk, index0, weather_risk_weights, List.lookup]
  norm_num

/-- In the typed model an observation whose `weather` key holds an empty list
makes `calculate_risk` raise `IndexError` instead of returning a score. -/
theorem calculate_risk_empty_weather_raises :
    calculate_risk ⟨some [], none, none, none⟩
      = Except.error "IndexError: list index out of range" := by
  simp [calculate_risk, index0]

/-- In the typed model, every observation whose `weather` list — when
present — is non-empty scores successfully. -/
theorem calculate_risk_never_raises (wd : Observation)
    (h : ∀ ws, wd.weather = some ws → ws ≠ []) :
    (calculate_risk wd).isOk = true := by
  rcases hw : (wd.weather).getD [⟨none⟩] with _ | ⟨item, rest⟩
  · exfalso
    rcases hws : wd.weather with _ | ws
    · rw [hws] at hw
      simp at hw
    · refine h ws hws ?_
      rw [hws] at hw
      simpa using hw
  · rw [calculate_risk_eq wd item rest hw]
    rfl

/-- C3 counterexample: at the observation whose `weather` key holds an empty
list, the code raises `IndexError` instead of returning the formula value
(whose condition label would default to "Clear" by the data model). -/
theorem calculate_risk_formula_not_universal :
    calculate_risk ⟨some [], none, none, none⟩
      ≠ Except.ok (spec_score "Clear" 0 0 0) := by
  simp [calculate_risk, index0]

/-- C1 counterexample: a negative wind speed drives the score below 0; the
observation with `wind.speed = -100` scores −0.8. -/
theorem calculate_risk_negative_score :
    calculate_risk ⟨none, none, some (-100), none⟩ = Except.ok (-0.8)
      ∧ ¬ ((0 : ℚ) ≤ -0.8) := by
  constructor
  · simp [calculate_risk, index0, weather_risk_weights, List.lookup]
    norm_num
  · norm_num

/-- C1 amended: every score `calculate_risk` returns is at most 0.95, and it
is nonnegative whenever the (defaulted) wind speed and precipitation are
nonnegative; a negative wind speed or precipitation can push it below 0. -/
theorem calculate_risk_in_range (wd : Observation) (q : ℚ)
    (h : calculate_risk wd = Except.ok q) :
    q ≤ 0.95 ∧ (0 ≤ (wd.windSpeed).getD 0 → 0 ≤ (wd.rain1h).getD 0 → 0 ≤ q) := by
  rcases hw : (wd.weather).getD [⟨none⟩] with _ | ⟨item, rest⟩
  · simp [calculate_risk, hw, index0] at h
  · rw [calculate_risk_eq wd item rest hw] at h
    simp only [Except.ok.injEq] at h
    subst h
    constructor
    · exact min_le_left _ _
    · intro hwind hrain
      have h1 := le_lookup_weights ((item.main).getD "Clear")
      have h2 : (0 : ℚ) ≤
          (if (wd.mainTemp).getD 0 > 35 ∨ (wd.mainTemp).getD 0 < -10 then (0.3 : ℚ)
           else if (wd.mainTemp).getD 0 > 30 ∨ (wd.mainTemp).getD 0 < 0 then 0.2 else 0) := by
        split_ifs <;> norm_num
      have h3 : (0 : ℚ) ≤ min ((wd.windSpeed).getD 0 / 100) 0.4 :=
        le_min (div_nonneg hwind (by norm_num)) (by norm_num)
      have h4 : (0 : ℚ) ≤ min ((wd.rain1h).getD 0 / 50) 0.3 :=
        le_min (div_nonneg hrain (by norm_num)) (by norm_num)
      exact le_min (by norm_num) (by linarith)

/-- Witness for C1 amended at the empty observation, whose score is 0.2. -/
theorem calculate_risk_in_range_witness :
    (0.2 : ℚ) ≤ 0.95 ∧ (0 ≤ ((none : Option ℚ)).getD 0 →
      0 ≤ ((none : Option ℚ)).getD 0 → (0 : ℚ) ≤ 0.2) :=
  calculate_risk_in_range ⟨none, none, none, none⟩ 0.2
    (by simp [calculate_risk, index0, weather_risk_weights, List.lookup]; norm_num)

/-- C3 amended: on every observation with a primary condition item (the
`weather` list, after defaulting an absent key, is non-empty), `calculate_risk`
returns exactly the specification formula
`min(0.95, 0.1 + conditionWeight + tempRisk + min(windSpeed/100, 0.4) +
min(precipitation/50, 0.3))` applied to the defaulted fields. -/
theorem calculate_risk_formula (wd : Observation) (item : WeatherItem)
    (rest : List WeatherItem) (h : (wd.weather).getD [⟨none⟩] = item :: rest) :
    calculate_risk wd = Except.ok (spec_score ((item.main).getD "Clear")
      ((wd.mainTemp).getD 0) ((wd.windSpeed).getD 0) ((wd.rain1h).getD 0)) := by
  rw [calculate_risk_eq wd item rest h]
  simp only [spec_score]

/-- Witness for C3 at the spec's moderate example observation. -/
theorem calculate_risk_formula_witness :
    calculate_risk ⟨some [⟨some "Rain"⟩], some 32, some 10, some 5⟩
      = Except.ok (spec_score (((⟨some "Rain"⟩ : WeatherItem).main).getD "Clear")
          ((some (32 : ℚ)).getD 0) ((some (10 : ℚ)).getD 0) ((some (5 : ℚ)).getD 0)) :=
  calculate_risk_formula ⟨some [⟨some "Rain"⟩], some 32, some 10, some 5⟩
    ⟨some "Rain"⟩ [] (by simp)

/-- C6: the score is monotone in wind speed and precipitation jointly — with
all other fields fixed, increasing either never decreases the score. -/
theorem calculate_risk_monotone (wd : Observation) (w1 w2 r1 r2 q1 q2 : ℚ)
    (hw : w1 ≤ w2) (hr : r1 ≤ r2)
    (h1 : calculate_risk ⟨wd.weather, wd.mainTemp, some w1, some r1⟩ = Except.ok q1)
    (h2 : calculate_risk ⟨wd.weather, wd.mainTemp, some w2, some r2⟩ = Except.ok q2) :
    q1 ≤ q2 := by
  rcases hw0 : (wd.weather).getD [⟨none⟩] with _ | ⟨item, rest⟩
  · simp [calculate_risk, hw0, index0] at h1
  · rw [calculate_risk_eq ⟨wd.weather, wd.mainTemp, some w1, some r1⟩ item rest hw0] at h1
    rw [calculate_risk_eq ⟨wd.weather, wd.mainTemp, some w2, some r2⟩ item rest hw0] at h2
    simp only [Except.ok.injEq] at h1 h2
    subst h1
    subst h2
    dsimp only
    gcongr <;> assumption

/-- Witness for C6: wind 0, rain 0 scores 0.2 against wind 1, rain 1 scoring
0.23. -/
theorem calculate_risk_monotone_witness : (0.2 : ℚ) ≤ 0.23 :=
  calculate_risk_monotone ⟨none, none, none, none⟩ 0 1 0 1 0.2 0.23
    (by norm_num) (by norm_num)
    (by simp [calculate_risk, index0, weather_risk_weights, List.lookup]; norm_num)
    (by simp [calculate_risk, index0, weather_risk_weights, List.lookup]; norm_num)

/-- C9: `get_risk_color` returns "green" exactly below 0.3, "orange" exactly
on [0.3, 0.7), and "red" exactly from 0.7 up. -/
theorem get_risk_color_cases (s : ℚ) :
    (get_risk_color s = "green" ↔ s < 0.3) ∧
    (get_risk_color s = "orange" ↔ 0.3 ≤ s ∧ s < 0.7) ∧
    (get_risk_color s = "red" ↔ 0.7 ≤ s) := by
  unfold get_risk_color
  split_ifs with h1 h2 <;>
    refine ⟨?_, ?_, ?_⟩ <;> simp <;>
    first
      | linarith
      | (constructor <;> linarith)
      | (intro hc; linarith)

/-- A JSON value as returned by `response.json()`.  This dynamic model can
represent malformed observations — wrong-typed fields included — that the
typed `Observation` above cannot. -/
inductive JValue where
  | null
  | bool (b : Bool)
  | num (q : ℚ)
  | str (s : String)
  | arr (elems : List JValue)
  | obj (fields : List (String × JValue))

/-- Python `x.get(key, default)`: dictionaries look the key up, anything else
has no `.get` attribute and raises `AttributeError`. -/
def py_get : JValue → String → JValue → Except String JValue
  | .obj fields, key, dflt => Except.ok ((List.lookup key fields).getD dflt)
  | _, _, _ => Except.error "AttributeError: object has no attribute get"

/-- Python `x[0]`: lists index (raising `IndexError` when empty), strings
index their characters, dictionaries look up the key 0 (never a key of a JSON
object, so `KeyError`), everything else is not subscriptable. -/
def py_index0 : JValue → Except String JValue
  | .arr [] => Except.error "IndexError: list index out of range"
  | .arr (x :: _) => Except.ok x
  | .str s =>
    match s.toList with
    | [] => Except.error "IndexError: string index out of range"
    | c :: _ => Except.ok (.str (String.mk [c]))
  | .obj _ => Except.error "KeyError: 0"
  | _ => Except.error "TypeError: object is not subscriptable"

/-- `self.weather_risk_weights.get(main_condition, 0.1)`: a string key is
looked up in the table, any other hashable value misses it and takes the
default, and an unhashable value (a list or dict) raises `TypeError`. -/
def py_weights_get : JValue → Except String ℚ
  | .str s => Except.ok ((List.lookup s weather_risk_weights).getD 0.1)
  | .arr _ => Except.error "TypeError: unhashable type"
  | .obj _ => Except.error "TypeError: unhashable type"
  | _ => Except.ok 0.1

/-- Python `x > c` against a numeric literal: numbers compare, booleans
compare as 0/1, anything else raises `TypeError`. -/
def py_gt : JValue → ℚ → Except String Bool
  | .num q, c => Except.ok (decide (q > c))
  | .bool b, c => Except.ok (decide ((if b then (1 : ℚ) else 0) > c))
  | _, _ => Except.error "TypeError: comparison not supported"

/-- Python `x < c` against a numeric literal. -/
def py_lt : JValue → ℚ → Except String Bool
  | .num q, c => Except.ok (decide (q < c))
  | .bool b, c => Except.ok (decide ((if b then (1 : ℚ) else 0) < c))
  | _, _ => Except.error "TypeError: comparison not supported"

/-- Python `x / c` for a nonzero numeric literal `c`: numbers and booleans
divide, anything else raises `TypeError`. -/
def py_div : JValue → ℚ → Except String ℚ
  | .num q, c => Except.ok (q / c)
  | .bool b, c => Except.ok ((if b then (1 : ℚ) else 0) / c)
  | _, _ => Except.error "TypeError: unsupported operand type for division"

/-- The line `weather_data.get('weather', [{}])[0].get('main', 'Clear')`. -/
def py_main_condition (weather_data : JValue) : Except String JValue := do
  let w ← py_get weather_data "weather" (JValue.arr [JValue.obj []])
  let first ← py_index0 w
  py_get first "main" (JValue.str "Clear")

/-- The chained lookup `weather_data.get(outer, {}).get(inner, default)`
used for `main.temp`, `wind.speed` and `rain.1h`. -/
def py_get2 (weather_data : JValue) (outer inner : String) (dflt : JValue) :
    Except String JValue := do
  let m ← py_get weather_data outer (JValue.obj [])
  py_get m inner dflt

/-- The `if temp > 35 or temp < -10 ... elif temp > 30 or temp < 0` cascade
with Python's left-to-right short-circuit evaluation of `or`. -/
def py_temp_risk (temp : JValue) : Except String ℚ := do
  let c1 ← py_gt temp 35
  if c1 then
    return 0.3
  else
    let c2 ← py_lt temp (-10)
    if c2 then
      return 0.3
    else
      let c3 ← py_gt temp 30
      if c3 then
        return 0.2
      else
        let c4 ← py_lt temp 0
        if c4 then return 0.2 else return 0

/-- `WeatherRiskAnalyzer.calculate_risk` over raw JSON values, under Python's
dynamic semantics: each step either produces a value or raises. -/
def calculate_risk_dyn (weather_data : JValue) : Except String ℚ := do
  let base_risk : ℚ := 0.1
  let main_condition ← py_main_condition weather_data
  let weather_risk ← py_weights_get main_condition
  let temp ← py_get2 weather_data "main" "temp" (JValue.num 0)
  let temp_risk ← py_temp_risk temp
  let wind_speed ← py_get2 weather_data "wind" "speed" (JValue.num 0)
  let wq ← py_div wind_speed 100
  let wind_risk := min wq 0.4
  let rain ← py_get2 weather_data "rain" "1h" (JValue.num 0)
  let rq ← py_div rain 50
  let rain_risk := min rq 0.3
  let total_risk := min 0.95 (base_risk + weather_risk + temp_risk + wind_risk + rain_risk)
  return total_risk

/-- A value Python can use as a dict key without raising. -/
def hashable : JValue → Bool
  | .arr _ => false
  | .obj _ => false
  | _ => true

/-- A value the Python comparisons and divisions accept. -/
def is_numlike : JValue → Bool
  | .num _ => true
  | .bool _ => true
  | _ => false

/-- A well-formed first weather item: a dict whose `main` value, when
present, is hashable. -/
def wf_weather_item : JValue → Bool
  | .obj fields =>
    (match List.lookup "main" fields with
     | none => true
     | some v => hashable v)
  | _ => false

/-- A well-formed `weather` field: absent, or a non-empty list with a
well-formed first item. -/
def wf_weather : Option JValue → Bool
  | none => true
  | some (.arr (i :: _)) => wf_weather_item i
  | some _ => false

/-- A well-formed numeric sub-field: the outer field is absent, or a dict
whose inner value — when present — is numeric. -/
def wf_numfield : Option JValue → String → Bool
  | none, _ => true
  | some (.obj fields), key =>
    (match List.lookup key fields with
     | none => true
     | some v => is_numlike v)
  | some _, _ => false

/-- A well-formed observation: a JSON dict whose present fields have the
shapes `calculate_risk` reads without raising. -/
def wf_observation : JValue → Bool
  | .obj fields =>
    wf_weather (List.lookup "weather" fields)
      && wf_numfield (List.lookup "main" fields) "temp"
      && wf_numfield (List.lookup "wind" fields) "speed"
      && wf_numfield (List.lookup "rain" fields) "1h"
  | _ => false

/-- Comparison succeeds on numeric-like values. -/
lemma py_gt_ok (v : JValue) (c : ℚ) (h : is_numlike v = true) :
    ∃ b, py_gt v c = Except.ok b := by
  rcases v with _ | b | q | s | es | fs <;> simp [is_numlike] at h <;> exact ⟨_, rfl⟩

/-- Comparison succeeds on numeric-like values. -/
lemma py_lt_ok (v : JValue) (c : ℚ) (h : is_numlike v = true) :
    ∃ b, py_lt v c = Except.ok b := by
  rcases v with _ | b | q | s | es | fs <;> simp [is_numlike] at h <;> exact ⟨_, rfl⟩

/-- Division succeeds on numeric-like values. -/
lemma py_div_ok (v : JValue) (c : ℚ) (h : is_numlike v = true) :
    ∃ q, py_div v c = Except.ok q := by
  rcases v with _ | b | q | s | es | fs <;> simp [is_numlike] at h <;> exact ⟨_, rfl⟩

/-- The weight lookup succeeds on hashable keys. -/
lemma py_weights_get_ok (v : JValue) (h : hashable v = true) :
    ∃ q, py_weights_get v = Except.ok q := by
  rcases v with _ | b | q | s | es | fs <;> simp [hashable] at h <;> exact ⟨_, rfl⟩

/-- The temperature cascade succeeds on numeric-like values. -/
lemma py_temp_risk_ok (v : JValue) (h : is_numlike v = true) :
    ∃ tr, py_temp_risk v = Except.ok tr := by
  obtain ⟨b1, h1⟩ := py_gt_ok v 35 h
  obtain ⟨b2, h2⟩ := py_lt_ok v (-10) h
  obtain ⟨b3, h3⟩ := py_gt_ok v 30 h
  obtain ⟨b4, h4⟩ := py_lt_ok v 0 h
  cases b1 <;> cases b2 <;> cases b3 <;> cases b4 <;>
    simp [py_temp_risk, h1, h2, h3, h4, Bind.bind, Except.bind, Pure.pure, Except.pure]

/-- The condition-label line succeeds on a dict with a well-formed `weather`
field, and yields a hashable label. -/
lemma py_main_condition_ok (fields : List (String × JValue))
    (h : wf_weather (List.lookup "weather" fields) = true) :
    ∃ v, py_main_condition (JValue.obj fields) = Except.ok v ∧ hashable v = true := by
  rcases hwl : List.lookup "weather" fields with _ | wv
  · exact ⟨JValue.str "Clear",
      by simp [py_main_condition, py_get, hwl, py_index0, Bind.bind, Except.bind], rfl⟩
  · rw [hwl] at h
    rcases wv with _ | b | q | s | es | fs
    · simp [wf_weather] at h
    · simp [wf_weather] at h
    · simp [wf_weather] at h
    · simp [wf_weather] at h
    · rcases es with _ | ⟨i, rest⟩
      · simp [wf_weather] at h
      · simp only [wf_weather] at h
        rcases i with _ | b | q | s | es2 | ifs <;> simp [wf_weather_item] at h
        rcases hml : List.lookup "main" ifs with _ | v
        · exact ⟨JValue.str "Clear",
            by simp [py_main_condition, py_get, hwl, py_index0, hml, Bind.bind, Except.bind], rfl⟩
        · rw [hml] at h
          exact ⟨v,
            by simp [py_main_condition, py_get, hwl, py_index0, hml, Bind.bind, Except.bind], h⟩
    · simp [wf_weather] at h

/-- The chained numeric lookup succeeds on a well-formed field and yields a
numeric-like value. -/
lemma py_get2_ok (fields : List (String × JValue)) (outer inner : String)
    (dflt : JValue) (h : wf_numfield (List.lookup outer fields) inner = true)
    (hd : is_numlike dflt = true) :
    ∃ v, py_get2 (JValue.obj fields) outer inner dflt = Except.ok v
      ∧ is_numlike v = true := by
  rcases hol : List.lookup outer fields with _ | ov
  · exact ⟨dflt, by simp [py_get2, py_get, hol, Bind.bind, Except.bind], hd⟩
  · rw [hol] at h
    rcases ov with _ | b | q | s | es | ofs <;> simp [wf_numfield] at h
    rcases hil : List.lookup inner ofs with _ | v
    · exact ⟨dflt, by simp [py_get2, py_get, hol, hil, Bind.bind, Except.bind], hd⟩
    · rw [hil] at h
      exact ⟨v, by simp [py_get2, py_get, hol, hil, Bind.bind, Except.bind], h⟩

/-- C2 counterexample: a present-but-empty `weather` list raises `IndexError`,
and a non-numeric temperature raises `TypeError` — neither malformed field is
defaulted. -/
theorem calculate_risk_dyn_raises :
    calculate_risk_dyn (JValue.obj [("weather", JValue.arr [])])
        = Except.error "IndexError: list index out of range"
    ∧ calculate_risk_dyn (JValue.obj [("main", JValue.obj [("temp", JValue.str "hot")])])
        = Except.error "TypeError: comparison not supported" := by
  constructor <;>
    simp [calculate_risk_dyn, py_main_condition, py_get2, py_get, py_index0,
      py_weights_get, py_temp_risk, py_gt, List.lookup, Bind.bind, Except.bind]

/-- C2 amended: a missing field never raises — it is defaulted — and
`calculate_risk` returns a score for every observation whose present fields
are well-formed; a malformed present field (an empty `weather` list, a
non-numeric temperature, ...) raises. -/
theorem calculate_risk_dyn_never_raises (j : JValue)
    (h : wf_observation j = true) : (calculate_risk_dyn j).isOk = true := by
  rcases j with _ | b | q | s | es | fields <;>
    simp only [wf_observation, Bool.and_eq_true, Bool.false_eq_true] at h
  obtain ⟨⟨⟨hwthr, htmp⟩, hwnd⟩, hrn⟩ := h
  obtain ⟨mc, hmc, hmch⟩ := py_main_condition_ok fields hwthr
  obtain ⟨wr, hwr⟩ := py_weights_get_ok mc hmch
  obtain ⟨tv, htv, htvn⟩ := py_get2_ok fields "main" "temp" (JValue.num 0) htmp rfl
  obtain ⟨tr, htr⟩ := py_temp_risk_ok tv htvn
  obtain ⟨wv, hwv, hwvn⟩ := py_get2_ok fields "wind" "speed" (JValue.num 0) hwnd rfl
  obtain ⟨wq, hwq⟩ := py_div_ok wv 100 hwvn
  obtain ⟨rv, hrv, hrvn⟩ := py_get2_ok fields "rain" "1h" (JValue.num 0) hrn rfl
  obtain ⟨rq, hrq⟩ := py_div_ok rv 50 hrvn
  simp [calculate_risk_dyn, hmc, hwr, htv, htr, hwv, hwq, hrv, hrq,
    Bind.bind, Except.bind, Pure.pure, Except.pure, Except.isOk, Except.toBool]

/-- Witness for C2 amended: a well-formed observation with a condition,
a temperature and a wind speed scores successfully. -/
theorem calculate_risk_dyn_never_raises_witness :
    (calculate_risk_dyn (JValue.obj
      [("weather", JValue.arr [JValue.obj [("main", JValue.str "Rain")]]),
       ("main", JValue.obj [("temp", JValue.num 32)]),
       ("wind", JValue.obj [("speed", JValue.num 10)])])).isOk = true :=
  calculate_risk_dyn_never_raises (JValue.obj
      [("weather", JValue.arr [JValue.obj [("main", JValue.str "Rain")]]),
       ("main", JValue.obj [("temp", JValue.num 32)]),
       ("wind", JValue.obj [("speed", JValue.num 10)])]) (by rfl)

/-- The JSON encoding of a typed weather item. -/
def WeatherItem.toJValue : WeatherItem → JValue
  | ⟨none⟩ => JValue.obj []
  | ⟨some s⟩ => JValue.obj [("main", JValue.str s)]

/-- The JSON encoding of a typed observation: each present field becomes the
corresponding key path. -/
def Observation.toJValue (wd : Observation) : JValue :=
  JValue.obj
    ((match wd.weather with
      | none => []
      | some items => [("weather", JValue.arr (items.map WeatherItem.toJValue))])
     ++ (match wd.mainTemp with
      | none => []
      | some q => [("main", JValue.obj [("temp", JValue.num q)])])
     ++ (match wd.windSpeed with
      | none => []
      | some q => [("wind", JValue.obj [("speed", JValue.num q)])])
     ++ (match wd.rain1h with
      | none => []
      | some q => [("rain", JValue.obj [("1h", JValue.num q)])]))

/-- On numbers the dynamic temperature cascade computes the typed two-tier
conditional. -/
lemma py_temp_risk_num (q : ℚ) :
    py_temp_risk (JValue.num q)
      = Except.ok (if q > 35 ∨ q < -10 then (0.3 : ℚ)
          else if q > 30 ∨ q < 0 then 0.2 else 0) := by
  by_cases h1 : q > 35 <;> by_cases h2 : q < -10 <;>
    by_cases h3 : q > 30 <;> by_cases h4 : q < 0 <;>
    simp [py_temp_risk, py_gt, py_lt, h1, h2, h3, h4,
      Bind.bind, Except.bind, Pure.pure, Except.pure]

/-- The dynamic scorer agrees with the typed one on every typed observation
(raises included): the typed model is the dynamic model restricted to
well-typed shapes. -/
theorem calculate_risk_dyn_agrees (wd : Observation) :
    calculate_risk_dyn (Observation.toJValue wd) = calculate_risk wd := by
  obtain ⟨w, mt, ws, r⟩ := wd
  rcases w with _ | (_ | ⟨⟨_ | s⟩, rest⟩)
  all_goals rcases mt with _ | tq
  all_goals rcases ws with _ | wq2
  all_goals rcases r with _ | rq2
  all_goals
    simp [Observation.toJValue, WeatherItem.toJValue, calculate_risk, calculate_risk_dyn,
      py_main_condition, py_get2, py_get, py_index0, py_weights_get, py_temp_risk_num,
      py_div, index0, List.lookup, Bind.bind, Except.bind, Pure.pure, Except.pure]

/-- A static monitored location (name with coordinates). -/
structure Location where
  name : String
  lat : ℚ
  lon : ℚ
deriving Repr, DecidableEq

/-- The snapshot record a successful fetch builds. -/
structure Snapshot where
  location : String
  latitude : ℚ
  longitude : ℚ
  weather_data : Observation
  risk_score : ℚ
  timestamp : String
deriving Repr, DecidableEq

/-- What one `requests.get` call to the weather service can do: raise, or
yield an HTTP response carrying a status code and — when the body is read —
either a parsed observation or a `json()` parse error. -/
inductive FetchOutcome where
  | raised
  | response (status_code : Nat) (body : Except String Observation)

/-- The body of the `try` block of `DisasterResponseSystem.fetch_weather_data`:
perform the request; on status 200 parse the body, score it and build the
snapshot record; on any other status fall through to the implicit `None`.
A raise anywhere inside is an `Except.error`. -/
def fetch_attempt (env : Location → FetchOutcome) (t : String)
    (location : Location) : Except String (Option Snapshot) :=
  match env location with
  | .raised => Except.error "requests.get raised"
  | .response status_code body =>
    if status_code = 200 then
      match body with
      | .error e => Except.error e
      | .ok weather_data =>
        match calculate_risk weather_data with
        | .error e => Except.error e
        | .ok risk_score =>
          Except.ok (some ⟨location.name, location.lat, location.lon,
            weather_data, risk_score, t⟩)
    else Except.ok none

/-- `DisasterResponseSystem.fetch_weather_data`: the `try/except` wrapper
around the fetch — any raise is logged and becomes `None`. -/
def fetch_weather_data (env : Location → FetchOutcome) (t : String)
    (location : Location) : Option Snapshot :=
  match fetch_attempt env t location with
  | .error _ => none
  | .ok r => r

/-- The aggregator state: the stored snapshot dictionary (an insertion-ordered
association list, as a Python dict) and the configured location list. -/
structure DisasterResponseSystem where
  weather_data : List (String × Snapshot)
  monitored_locations : List Location
deriving Repr

/-- The initial state from `DisasterResponseSystem.__init__`: an empty store
and the ten hard-coded monitored locations. -/
def initial_system : DisasterResponseSystem :=
  ⟨[],
   [⟨"New York", 40.7128, -74.0060⟩, ⟨"Los Angeles", 34.0522, -118.2437⟩,
    ⟨"Chicago", 41.8781, -87.6298⟩, ⟨"Houston", 29.7604, -95.3698⟩,
    ⟨"Phoenix", 33.4484, -112.0740⟩, ⟨"Miami", 25.7617, -80.1918⟩,
    ⟨"Seattle", 47.6062, -122.3321⟩, ⟨"Denver", 39.7392, -104.9903⟩,
    ⟨"New Orleans", 29.9511, -90.0715⟩, ⟨"Kansas City", 39.0997, -94.5786⟩]⟩

/-- Python dict assignment `d[k] = v` on an insertion-ordered dictionary:
replace the value in place when the key is present, else append. -/
def dict_insert : List (String × Snapshot) → String → Snapshot → List (String × Snapshot)
  | [], k, v => [(k, v)]
  | p :: m, k, v => if p.1 = k then (k, v) :: m else p :: dict_insert m k v

/-- The dict comprehension `{r["location"]: r for r in valid_results}`. -/
def dict_of_results (rs : List Snapshot) : List (String × Snapshot) :=
  rs.foldl (fun m r => dict_insert m r.location r) []

/-- `DisasterResponseSystem.update_all_locations`: map `fetch_weather_data`
over the monitored locations (the thread pool preserves the input order of
`executor.map`), keep the non-`None` results, store them keyed by location
name — replacing the previous dictionary wholesale — and return them. -/
def update_all_locations (sys : DisasterResponseSystem)
    (env : Location → FetchOutcome) (t : String) :
    List Snapshot × DisasterResponseSystem :=
  let results := sys.monitored_locations.map (fetch_weather_data env t)
  let valid_results := results.filterMap id
  (valid_results, ⟨dict_of_results valid_results, sys.monitored_locations⟩)

/-- A successful fetch snapshots the location it was asked about. -/
lemma fetch_location (env : Location → FetchOutcome) (t : String)
    (loc : Location) (s : Snapshot) (h : fetch_weather_data env t loc = some s) :
    s.location = loc.name := by
  unfold fetch_weather_data fetch_attempt at h
  rcases henv : env loc with _ | ⟨st, body⟩ <;> rw [henv] at h <;> dsimp only at h
  · simp at h
  · by_cases hst : st = 200
    · rw [if_pos hst] at h
      rcases body with e | wd <;> dsimp only at h
      · simp at h
      · rcases hc : calculate_risk wd with e | q <;> rw [hc] at h <;> dsimp only at h
        · simp at h
        · simp at h
          rw [← h]
    · rw [if_neg hst] at h
      simp at h

/-- The length of a `filterMap` counts the inputs mapped to `some`. -/
lemma length_filterMap_eq {α β : Type} (f : α → Option β) (l : List α) :
    (l.filterMap f).length = (l.filter fun a => (f a).isSome).length := by
  induction l with
  | nil => rfl
  | cons a l ih => cases h : f a <;> simp [List.filterMap_cons, List.filter_cons, h, ih]

/-- Splitting a list by whether `f` yields `some` or `none`. -/
lemma length_filter_some_add_none {α β : Type} (f : α → Option β) (l : List α) :
    (l.filter fun a => (f a).isSome).length + (l.filter fun a => (f a).isNone).length
      = l.length := by
  induction l with
  | nil => rfl
  | cons a l ih => cases h : f a <;> simp [List.filter_cons, h] <;> omega

/-- The returned collection is the fetch over the monitored list with the
`None` results dropped. -/
lemma update_all_locations_fst (sys : DisasterResponseSystem)
    (env : Location → FetchOutcome) (t : String) :
    (update_all_locations sys env t).1
      = sys.monitored_locations.filterMap (fetch_weather_data env t) := by
  unfold update_all_locations
  induction sys.monitored_locations with
  | nil => rfl
  | cons l ls ih => cases h : fetch_weather_data env t l <;>
      simp_all [List.filterMap_cons]

/-- The locations of the successful snapshots, in order. -/
lemma filterMap_fetch_map_location (env : Location → FetchOutcome) (t : String)
    (ls : List Location) :
    ((ls.filterMap (fetch_weather_data env t)).map fun s => s.location)
      = ((ls.filter fun l => (fetch_weather_data env t l).isSome).map fun l => l.name) := by
  induction ls with
  | nil => rfl
  | cons l ls ih =>
    cases h : fetch_weather_data env t l with
    | none => simp [List.filterMap_cons, List.filter_cons, h, ih]
    | some s => simp [List.filterMap_cons, List.filter_cons, h, ih, fetch_location env t l s h]

/-- Inserting a fresh key appends. -/
lemma dict_insert_of_not_mem (m : List (String × Snapshot)) (k : String) (v : Snapshot)
    (h : ∀ p ∈ m, p.1 ≠ k) : dict_insert m k v = m ++ [(k, v)] := by
  induction m with
  | nil => rfl
  | cons p m ih =>
    rw [dict_insert, if_neg (h p (List.mem_cons_self _ _)),
      ih (fun q hq => h q (List.mem_cons_of_mem _ hq))]
    rfl

/-- Folding `dict_insert` over results with pairwise-distinct fresh keys just
appends them in order. -/
lemma foldl_dict_insert (rs : List Snapshot) : ∀ m : List (String × Snapshot),
    (∀ p ∈ m, ∀ s ∈ rs, p.1 ≠ s.location) → ((rs.map fun s => s.location).Nodup) →
    rs.foldl (fun m r => dict_insert m r.location r) m
      = m ++ (rs.map fun s => (s.location, s)) := by
  induction rs with
  | nil => intro m _ _; simp
  | cons r rs ih =>
    intro m hdisj hnodup
    simp only [List.map_cons, List.nodup_cons] at hnodup
    rw [List.foldl_cons,
      dict_insert_of_not_mem m r.location r (fun p hp => hdisj p hp r (List.mem_cons_self _ _))]
    have h1 : ∀ p ∈ m ++ [(r.location, r)], ∀ s ∈ rs, p.1 ≠ s.location := by
      intro p hp s hs
      rcases List.mem_append.mp hp with h | h
      · exact hdisj p h s (List.mem_cons_of_mem _ hs)
      · have hp1 : p.1 = r.location := by
          simp at h
          rw [h]
        rw [hp1]
        intro hcon
        exact hnodup.1 (hcon ▸ List.mem_map_of_mem (fun s => s.location) hs)
    rw [ih (m ++ [(r.location, r)]) h1 hnodup.2]
    simp

/-- With pairwise-distinct location names the stored dict is exactly the
result list keyed by name. -/
lemma dict_of_results_eq (rs : List Snapshot) (h : (rs.map fun s => s.location).Nodup) :
    dict_of_results rs = rs.map fun s => (s.location, s) := by
  unfold dict_of_results
  simpa using foldl_dict_insert rs [] (by simp) h

/-- The successful snapshots carry pairwise-distinct location names whenever
the monitored names are pairwise distinct. -/
lemma valid_results_nodup (sys : DisasterResponseSystem)
    (env : Location → FetchOutcome) (t : String)
    (hN : (sys.monitored_locations.map fun l => l.name).Nodup) :
    (((sys.monitored_locations.filterMap (fetch_weather_data env t)).map
        fun s => s.location)).Nodup := by
  rw [filterMap_fetch_map_location]
  exact List.Nodup.sublist (List.Sublist.map _ (List.filter_sublist _)) hN

/-- C5: no per-location failure propagates — a raise inside the try block
becomes `None`, and `update_all_locations` returns (normally, by type) exactly
the snapshots of the locations that responded, each failed fetch contributing
no record. -/
theorem update_all_locations_no_propagation (sys : DisasterResponseSystem)
    (env : Location → FetchOutcome) (t : String) :
    (∀ location e, fetch_attempt env t location = Except.error e →
        fetch_weather_data env t location = none)
    ∧ (update_all_locations sys env t).1
        = sys.monitored_locations.filterMap (fetch_weather_data env t) := by
  constructor
  · intro location e h
    unfold fetch_weather_data
    rw [h]
  · exact update_all_locations_fst sys env t

/-- C10: the returned snapshots follow the configured order — their location
names are exactly the monitored list restricted, in order, to the locations
whose fetch succeeded. -/
theorem update_all_locations_order (sys : DisasterResponseSystem)
    (env : Location → FetchOutcome) (t : String) :
    ((update_all_locations sys env t).1.map fun s => s.location)
      = ((sys.monitored_locations.filter
            fun l => (fetch_weather_data env t l).isSome).map fun l => l.name) := by
  rw [update_all_locations_fst]
  exact filterMap_fetch_map_location env t sys.monitored_locations

/-- C4: with distinct monitored names, a refresh in which K of the N fetches
fail returns exactly N−K snapshots, and the stored dictionary afterwards holds
exactly those snapshots keyed by location name — nothing from any prior cycle
survives. -/
theorem update_all_locations_replaces (sys : DisasterResponseSystem)
    (env : Location → FetchOutcome) (t : String)
    (hN : (sys.monitored_locations.map fun l => l.name).Nodup) :
    (update_all_locations sys env t).1.length
        = sys.monitored_locations.length
          - (sys.monitored_locations.filter
              fun l => (fetch_weather_data env t l).isNone).length
    ∧ (update_all_locations sys env t).2.weather_data
        = (update_all_locations sys env t).1.map (fun s => (s.location, s))
    ∧ ((update_all_locations sys env t).2.weather_data.map Prod.fst)
        = ((sys.monitored_locations.filter
              fun l => (fetch_weather_data env t l).isSome).map fun l => l.name) := by
  have hfst := update_all_locations_fst sys env t
  have hsnd : (update_all_locations sys env t).2.weather_data
      = dict_of_results ((update_all_locations sys env t).1) := rfl
  have hdict : (update_all_locations sys env t).2.weather_data
      = (update_all_locations sys env t).1.map (fun s => (s.location, s)) := by
    rw [hsnd, hfst, dict_of_results_eq _ (valid_results_nodup sys env t hN)]
  refine ⟨?_, hdict, ?_⟩
  · rw [hfst, length_filterMap_eq]
    have := length_filter_some_add_none (fetch_weather_data env t) sys.monitored_locations
    omega
  · rw [hdict, hfst, List.map_map]
    have hcomp : (Prod.fst ∘ fun s : Snapshot => (s.location, s)) = fun s => s.location := rfl
    rw [hcomp]
    exact filterMap_fetch_map_location env t sys.monitored_locations

/-- The hard-coded deployment has pairwise-distinct location names, so the
distinct-names hypothesis above holds for the reference configuration. -/
lemma initial_system_nodup :
    (initial_system.monitored_locations.map fun l => l.name).Nodup := by
  simp [initial_system]

/-- A two-location system holding one stale entry, for the C4 witness. -/
def sysW : DisasterResponseSystem :=
  ⟨[("Old", ⟨"Old", 0, 0, ⟨none, none, none, none⟩, 0, "t0"⟩)],
   [⟨"A", 0, 0⟩, ⟨"B", 1, 1⟩]⟩

/-- An environment in which only location "A" responds. -/
def envW : Location → FetchOutcome := fun location =>
  if location.name = "A" then FetchOutcome.response 200 (Except.ok ⟨none, none, none, none⟩)
  else FetchOutcome.raised

/-- Witness for C4: one of two fetches fails, one snapshot is returned, and
the stale entry is gone. -/
theorem update_all_locations_replaces_witness :
    (update_all_locations sysW envW "t1").1.length
        = sysW.monitored_locations.length
          - (sysW.monitored_locations.filter
              fun l => (fetch_weather_data envW "t1" l).isNone).length
    ∧ (update_all_locations sysW envW "t1").2.weather_data
        = (update_all_locations sysW envW "t1").1.map (fun s => (s.location, s))
    ∧ ((update_all_locations sysW envW "t1").2.weather_data.map Prod.fst)
        = ((sysW.monitored_locations.filter
              fun l => (fetch_weather_data envW "t1" l).isSome).map fun l => l.name) :=
  update_all_locations_replaces sysW envW "t1" (by simp [sysW])

/-- C8: with zero configured locations a refresh returns the empty collection
and leaves the stored dictionary empty, whatever was stored before. -/
theorem update_all_locations_no_locations (wd : List (String × Snapshot))
    (env : Location → FetchOutcome) (t : String) :
    update_all_locations ⟨wd, []⟩ env t = ([], ⟨[], []⟩) := rfl

end DisasterRelief
